import Mathlib

/-!
Shallow embedding of `planning_agent` (agent.py and the provider modules) and
proofs of the specification claims about it.

Conventions of the embedding:
* Python mutable agent state becomes the record `AgentState`; each method that
  can mutate state is a function `AgentState → args → AgentState × Except AgentError out`,
  where the returned state is the state at normal return or at the raise point
  (a raised exception leaves the fields as last assigned).
* Python `None` becomes `Option.none`; Python truthiness of the plan field
  (`if not self.current_plan`) becomes `planTruthy`, false for `none` and for
  the empty string.
* The two hosted LLM calls are an external effect; their outcome is supplied
  as an oracle `hosted : String → Except AgentError String` mapping the
  requirement to the remote call's result (success text or raised error).
* The filesystem touched by `write_files` becomes the record `FS`.
-/

namespace PlanningAgentModel

/-- Embeds the `FileToGenerate` dataclass: path, content, description. -/
structure FileToGenerate where
  path : String
  content : String
  description : String
deriving DecidableEq, Repr

/-- The exception kinds the embedded code can raise (`ValueError`,
`FileExistsError` in the source). -/
inductive AgentError where
  | valueError (msg : String)
  | fileExistsError (msg : String)
deriving DecidableEq, Repr

/-- Embeds the mutable fields of `PlanningAgent`: `model_provider`,
`current_plan` (a string or `None`) and `plan_approved`. -/
structure AgentState where
  model_provider : String
  current_plan : Option String
  plan_approved : Bool
deriving DecidableEq, Repr

/-- Embeds `PlanningAgent.__init__(model_provider)`: stores the selector
verbatim and initializes `current_plan = None`, `plan_approved = False`.
The source constructor performs no validation of the selector. -/
def mkAgent (model_provider : String) : AgentState :=
  ⟨model_provider, none, false⟩

/-- Python truthiness of the `current_plan` field: `None` and the empty
string are falsy, every other string is truthy. -/
def planTruthy : Option String → Bool
  | none => false
  | some s => !(s == "")

/-- Embeds `PlanningAgent._generate_mock_plan`: the fixed f-string template
interpolating the requirement. -/
def generateMockPlan (requirement : String) : String :=
  "# Implementation Plan\n\n## Requirement\n" ++ requirement ++
  "\n\n## Proposed Solution\n\n### Files to Create\n1. `main.py` - Main application entry point\n2. `utils.py` - Utility functions\n3. `README.md` - Documentation\n\n### Implementation Steps\n1. Set up project structure\n2. Implement core functionality\n3. Add error handling\n4. Write documentation\n5. Test the implementation\n\n### Dependencies\n- No external dependencies required for basic implementation\n\n## Timeline\nEstimated implementation time: 30 minutes\n"

/-- Embeds `MockPlanProvider.generate_plan` (providers/mock_provider.py):
the fixed f-string template interpolating the requirement. -/
def mockProviderGeneratePlan (requirement : String) : String :=
  "# Implementation Plan\n\n## Requirement\n" ++ requirement ++
  "\n\n## Files\n- `main.py` - Main application entry point\n- `utils.py` - Utility functions\n- `README.md` - Documentation\n\n## Steps\n1. Set up project structure.\n2. Implement core functionality.\n3. Add error handling and validation.\n4. Add basic documentation.\n5. Add tests and verify the workflow.\n\n## Dependencies\n- No external dependencies required for basic implementation.\n\n## Open Questions\n- Are there any constraints on libraries/frameworks?\n- What is the target Python version and runtime environment?\n"

/-- Embeds `PlanningAgent._generate_plan_with_llm`: string dispatch on the
provider selector.  The `"openai"` and `"anthropic"` branches perform a
network call whose outcome is the oracle `hosted`; any other selector raises
`ValueError("Unknown model provider: ...")`. -/
def generatePlanWithLLM (provider : String)
    (hosted : String → Except AgentError String)
    (requirement : String) : Except AgentError String :=
  if provider == "mock" then .ok (generateMockPlan requirement)
  else if provider == "openai" then hosted requirement
  else if provider == "anthropic" then hosted requirement
  else .error (.valueError ("Unknown model provider: " ++ provider))

/-- Embeds `PlanningAgent.generate_plan`: calls `_generate_plan_with_llm`;
on success assigns `current_plan = plan`, `plan_approved = False` and returns
the plan; a provider failure propagates before either field is assigned. -/
def generate_plan (a : AgentState) (hosted : String → Except AgentError String)
    (requirement : String) : AgentState × Except AgentError String :=
  match generatePlanWithLLM a.model_provider hosted requirement with
  | .error e => (a, .error e)
  | .ok plan => (⟨a.model_provider, some plan, false⟩, .ok plan)

/-- Embeds `PlanningAgent.approve_plan`: raises when `current_plan` is falsy,
otherwise sets `plan_approved = True`. -/
def approve_plan (a : AgentState) : AgentState × Except AgentError Unit :=
  if !planTruthy a.current_plan then
    (a, .error (.valueError "No plan to approve. Generate a plan first."))
  else
    (⟨a.model_provider, a.current_plan, true⟩, .ok ())

/-- Embeds `PlanningAgent.reject_plan`: sets `plan_approved = False` and
`current_plan = None`; never raises. -/
def reject_plan (a : AgentState) : AgentState × Except AgentError Unit :=
  (⟨a.model_provider, none, false⟩, .ok ())

/-- Python `s.startswith(pre)` on strings, via the character lists. -/
def pyStartsWith (s pre : String) : Bool :=
  List.isPrefixOf pre.data s.data

/-- Python `s.endswith(suf)` on strings, via the character lists. -/
def pyEndsWith (s suf : String) : Bool :=
  List.isPrefixOf suf.data.reverse s.data.reverse

/-- Embeds posix `os.path.join(a, b)` for two components, as used by the
file-synthesis helpers. -/
def osPathJoin (a b : String) : String :=
  if pyStartsWith b "/" then b
  else if a == "" then b
  else if pyEndsWith a "/" then a ++ b
  else a ++ "/" ++ b

/-- Embeds `PlanningAgent._generate_mock_files(output_dir)`: the fixed list
of three descriptors with canned contents. -/
def generateMockFiles (output_dir : String) : List FileToGenerate :=
  [ ⟨osPathJoin output_dir "main.py",
     "\"\"\"Main application entry point.\"\"\"\n\ndef main():\n    print(\"Hello, World!\")\n\nif __name__ == \"__main__\":\n    main()\n",
     "Main application file"⟩,
    ⟨osPathJoin output_dir "utils.py",
     "\"\"\"Utility functions.\"\"\"\n\ndef helper_function():\n    \"\"\"A helpful utility function.\"\"\"\n    pass\n",
     "Utility functions"⟩,
    ⟨osPathJoin output_dir "README.md",
     "# Project\n\nThis project was generated by the planning agent.\n\n## Usage\n\n```bash\npython main.py\n```\n",
     "Project documentation"⟩ ]

/-- Embeds `PlanningAgent._generate_file_content(filename, plan)`: placeholder
content chosen by the filename's extension; the plan argument is only used by
none of the branches. -/
def generateFileContent (filename : String) (plan : String) : String :=
  if pyEndsWith filename ".py" then
    "\"\"\"Generated Python file: " ++ filename ++ "\"\"\"\n\n# TODO: Implement based on plan\n"
  else if pyEndsWith filename ".md" then
    "# " ++ filename ++ "\n\nGenerated documentation.\n"
  else if pyEndsWith filename ".json" then
    "{}\n"
  else if pyEndsWith filename ".yaml" then
    "# YAML configuration\n"
  else
    let _ := plan
    "# Generated file\n"

/-- The extension alternation of the regex
`r'\x60([^\x60]+\.(py|md|txt|json|yaml))\x60'` in
`_generate_files_from_plan`. -/
def fileExts : List String := ["py", "md", "txt", "json", "yaml"]

/-- Whether the text between two backticks is matched by
`[^\x60]+\.(py|md|txt|json|yaml)`: at least one character, then a dot, then
one of the five extensions, ending the token. -/
def tokenMatches (content : List Char) : Bool :=
  fileExts.any fun ext =>
    let suf := '.' :: ext.data
    decide (suf.length + 1 ≤ content.length) &&
      List.isPrefixOf suf.reverse content.reverse

/-- Splits a character list at its first backtick: the characters before it
and the characters after it, or `none` when no backtick occurs. -/
def splitAtTick : List Char → Option (List Char × List Char)
  | [] => none
  | c :: rest =>
    if c = '`' then some ([], rest)
    else
      match splitAtTick rest with
      | none => none
      | some (pre, post) => some (c :: pre, post)

/-- Fuel-indexed scanner embedding `re.findall` for the pattern above: find
an opening backtick, pair it with the next backtick; when the enclosed text
matches, emit it and resume after the closing backtick, otherwise resume just
after the opening backtick (the engine advances the start position), which
lets the failed pair's closing backtick open the next candidate. -/
def scanTokensFuel : Nat → List Char → List String
  | 0, _ => []
  | fuel + 1, l =>
    match splitAtTick l with
    | none => []
    | some (_, post) =>
      match splitAtTick post with
      | none => []
      | some (content, post2) =>
        if tokenMatches content then
          String.mk content :: scanTokensFuel fuel post2
        else
          scanTokensFuel fuel post

/-- Embeds `re.findall(file_pattern, plan)` projected to group 1 (the source
iterates `match[0]`). -/
def findFileTokens (plan : String) : List String :=
  scanTokensFuel plan.data.length plan.data

/-- Embeds `PlanningAgent._generate_files_from_plan(plan, output_dir)`:
the mock provider gets the fixed three files; every other selector scans the
plan for backtick-quoted filenames and synthesizes one descriptor per match. -/
def generateFilesFromPlan (provider : String) (plan : String)
    (output_dir : String) : List FileToGenerate :=
  if provider == "mock" then generateMockFiles output_dir
  else
    (findFileTokens plan).map fun filename =>
      ⟨osPathJoin output_dir filename,
       generateFileContent filename plan,
       "Generated " ++ filename⟩

/-- Embeds `PlanningAgent.implement_plan(output_dir)`: raises unless the plan
is approved, defensively raises when the plan is falsy, otherwise synthesizes
descriptors from `current_plan`; no field is assigned on any path. -/
def implement_plan (a : AgentState) (output_dir : String) :
    AgentState × Except AgentError (List FileToGenerate) :=
  if !a.plan_approved then
    (a, .error (.valueError "Plan must be approved before implementation"))
  else if !planTruthy a.current_plan then
    (a, .error (.valueError "No plan to implement"))
  else
    (a, .ok (generateFilesFromPlan a.model_provider (a.current_plan.getD "") output_dir))

/-- Embeds posix `os.path.dirname`: the text before the last slash, with
trailing slashes stripped unless the result is all slashes. -/
def osPathDirname (p : String) : String :=
  let r := p.data.reverse
  let headRev := r.dropWhile (fun c => !(c == '/'))
  if headRev.isEmpty then ""
  else
    let stripped := headRev.dropWhile (fun c => c == '/')
    if stripped.isEmpty then String.mk headRev.reverse
    else String.mk stripped.reverse

/-- The filesystem as `write_files` observes it: the set of directories known
to exist and the written files, most recent write first. -/
structure FS where
  dirs : List String
  files : List (String × String)
deriving DecidableEq, Repr

/-- Content at a path: the most recent write wins. -/
def FS.lookup (fs : FS) (path : String) : Option String :=
  (fs.files.find? fun pr => pr.1 == path).map Prod.snd

/-- Embeds `os.path.exists`: true when a file or a directory occupies the
path. -/
def FS.exists (fs : FS) (path : String) : Bool :=
  (fs.files.any fun pr => pr.1 == path) || fs.dirs.contains path

/-- Embeds `os.makedirs(os.path.dirname(path) or ".", exist_ok=True)`: the
parent directory (or `"."` when the path has none) is added; with
`exist_ok=True` this never raises. -/
def FS.mkdirFor (fs : FS) (path : String) : FS :=
  let d := osPathDirname path
  ⟨(if d == "" then "." else d) :: fs.dirs, fs.files⟩

/-- Writing truncates: the new content fully replaces any previous content at
the path. -/
def FS.write (fs : FS) (path content : String) : FS :=
  ⟨fs.dirs, (path, content) :: fs.files⟩

/-- Embeds `PlanningAgent.write_files(files, overwrite)`: for each descriptor
in order, make its parent directory, raise `FileExistsError` when the path is
occupied and `overwrite` is false, else write; the returned filesystem is its
state at normal return or at the raise point. -/
def write_files (fs : FS) (files : List FileToGenerate) (overwrite : Bool) :
    FS × Option AgentError :=
  match files with
  | [] => (fs, none)
  | f :: rest =>
    let fs1 := fs.mkdirFor f.path
    if fs1.exists f.path && !overwrite then
      (fs1, some (.fileExistsError ("File already exists: " ++ f.path)))
    else
      write_files (fs1.write f.path f.content) rest overwrite

/-- One call in an agent's lifetime; the provider outcome for a generate
call is supplied inline as its oracle. -/
inductive AgentOp where
  | genPlan (hosted : String → Except AgentError String) (req : String)
  | approve
  | reject
  | implement (dir : String)

/-- The agent state after one call, on success and failure alike. -/
def runOp (a : AgentState) : AgentOp → AgentState
  | .genPlan hosted req => (generate_plan a hosted req).1
  | .approve => (approve_plan a).1
  | .reject => (reject_plan a).1
  | .implement dir => (implement_plan a dir).1

/-- The agent state after a sequence of calls. -/
def runOps (a : AgentState) : List AgentOp → AgentState
  | [] => a
  | op :: ops => runOps (runOp a op) ops

/-- The state invariant: an approved agent holds a (truthy) plan. -/
def invHolds (a : AgentState) : Bool :=
  !a.plan_approved || planTruthy a.current_plan

theorem implement_plan_fst (a : AgentState) (dir : String) :
    (implement_plan a dir).1 = a := by
  unfold implement_plan
  split
  · rfl
  · split <;> rfl

theorem invHolds_runOp (a : AgentState) (op : AgentOp)
    (h : invHolds a = true) : invHolds (runOp a op) = true := by
  cases op with
  | genPlan hosted req =>
    cases hgen : generatePlanWithLLM a.model_provider hosted req with
    | error e => simpa [runOp, generate_plan, hgen] using h
    | ok p => simp [runOp, generate_plan, hgen, invHolds]
  | approve =>
    by_cases hp : planTruthy a.current_plan
    · simp [runOp, approve_plan, hp, invHolds]
    · simpa [runOp, approve_plan, Bool.eq_false_iff.mpr hp] using h
  | reject => simp [runOp, reject_plan, invHolds]
  | implement dir => simpa [runOp, implement_plan_fst] using h

/-- C1: `implement_plan(output_dir)` succeeds only from the Approved state:
whenever `plan_approved` is false (states Empty and Drafted) it raises the
invalid-operation `ValueError`; from Approved with a present plan it returns
the synthesized descriptors and the agent state is returned unchanged, so the
call is repeatable, each invocation re-synthesizing from the same plan. -/
theorem implement_plan_only_from_approved (a : AgentState) (dir : String) :
    (a.plan_approved = false →
      implement_plan a dir =
        (a, .error (.valueError "Plan must be approved before implementation")))
    ∧ (a.plan_approved = true → planTruthy a.current_plan = true →
      implement_plan a dir =
        (a, .ok (generateFilesFromPlan a.model_provider (a.current_plan.getD "") dir))) := by
  constructor
  · intro h
    simp [implement_plan, h]
  · intro h1 h2
    simp [implement_plan, h1, h2]

/-- Witness for C1: a Drafted agent fails, an Approved agent succeeds with
its state unchanged. -/
theorem implement_plan_only_from_approved_witness :
    implement_plan ⟨"mock", some "p", false⟩ "out" =
      (⟨"mock", some "p", false⟩,
       .error (.valueError "Plan must be approved before implementation"))
    ∧ implement_plan ⟨"mock", some "p", true⟩ "out" =
      (⟨"mock", some "p", true⟩,
       .ok (generateFilesFromPlan "mock" ((some "p").getD "") "out")) := by
  refine ⟨(implement_plan_only_from_approved ⟨"mock", some "p", false⟩ "out").1 rfl, ?_⟩
  exact (implement_plan_only_from_approved ⟨"mock", some "p", true⟩ "out").2 rfl (by decide)

/-- C2: a successful `generate_plan` stores the provider's text as
`current_plan` and forces `plan_approved := false`, overwriting whatever was
there; a provider failure propagates and both fields keep their pre-call
values. -/
theorem generate_plan_commits_only_on_success (a : AgentState)
    (hosted : String → Except AgentError String) (req : String) :
    (∀ p, generatePlanWithLLM a.model_provider hosted req = Except.ok p →
      generate_plan a hosted req = (⟨a.model_provider, some p, false⟩, Except.ok p))
    ∧ (∀ e, generatePlanWithLLM a.model_provider hosted req = Except.error e →
      generate_plan a hosted req = (a, Except.error e)) := by
  constructor <;> intro x h <;> simp [generate_plan, h]

/-- Witness for C2: the mock provider commits its plan over a fresh agent; a
failing hosted call leaves a previously approved plan untouched. -/
theorem generate_plan_commits_only_on_success_witness :
    generate_plan (mkAgent "mock") (fun _ => .ok "t") "r" =
      (⟨"mock", some (generateMockPlan "r"), false⟩, .ok (generateMockPlan "r"))
    ∧ generate_plan ⟨"openai", some "old", true⟩ (fun _ => .error (.valueError "boom")) "r" =
      (⟨"openai", some "old", true⟩, .error (.valueError "boom")) := by
  constructor
  · exact (generate_plan_commits_only_on_success (mkAgent "mock")
      (fun _ => .ok "t") "r").1 (generateMockPlan "r") rfl
  · exact (generate_plan_commits_only_on_success ⟨"openai", some "old", true⟩
      (fun _ => .error (.valueError "boom")) "r").2 (.valueError "boom") rfl

/-- C3: `approve_plan` with a falsy plan (a fresh agent's state among them)
raises the no-plan `ValueError` and returns the state unchanged; with a plan
present it sets `plan_approved := true` leaving `current_plan` as it was, and
is idempotent when the plan was already approved. -/
theorem approve_plan_requires_plan (a : AgentState) :
    (planTruthy a.current_plan = false →
      approve_plan a =
        (a, .error (.valueError "No plan to approve. Generate a plan first.")))
    ∧ (planTruthy a.current_plan = true →
      approve_plan a = (⟨a.model_provider, a.current_plan, true⟩, .ok ()))
    ∧ (planTruthy a.current_plan = true → a.plan_approved = true →
      (approve_plan a).1 = a) := by
  refine ⟨fun h => by simp [approve_plan, h], fun h => by simp [approve_plan, h],
    fun h1 h2 => ?_⟩
  cases a with
  | mk mp cp ap =>
    cases h2
    simp [approve_plan, h1]

/-- Witness for C3: a fresh agent cannot approve and stays Empty; a Drafted
agent approves keeping its plan; approving an Approved agent is the
identity. -/
theorem approve_plan_requires_plan_witness :
    approve_plan (mkAgent "mock") =
      (mkAgent "mock", .error (.valueError "No plan to approve. Generate a plan first."))
    ∧ approve_plan ⟨"mock", some "p", false⟩ = (⟨"mock", some "p", true⟩, .ok ())
    ∧ (approve_plan ⟨"mock", some "p", true⟩).1 = ⟨"mock", some "p", true⟩ := by
  refine ⟨(approve_plan_requires_plan (mkAgent "mock")).1 rfl,
    (approve_plan_requires_plan ⟨"mock", some "p", false⟩).2.1 (by decide),
    (approve_plan_requires_plan ⟨"mock", some "p", true⟩).2.2 (by decide) rfl⟩

/-- C5: the invariant "plan_approved implies current_plan present" holds for
a fresh agent and after every sequence of agent operations, whatever each
operation's outcome: no reachable state has `plan_approved = true` with an
absent (or empty) plan. -/
theorem invariant_reachable (p : String) (ops : List AgentOp) :
    invHolds (runOps (mkAgent p) ops) = true := by
  have h : ∀ a : AgentState, invHolds a = true → invHolds (runOps a ops) = true := by
    induction ops with
    | nil => exact fun a h => h
    | cons op ops ih => exact fun a h => ih _ (invHolds_runOp a op h)
  exact h (mkAgent p) rfl

/-- Counterexample to C4 as stated: constructing with the unrecognized
selector "bogus" succeeds and yields an ordinary agent — no error is raised
at construction; the unknown-provider `ValueError` appears only when the
first `generate_plan` call runs, i.e. it is deferred. -/
theorem unknown_provider_not_rejected_at_construction :
    mkAgent "bogus" = ⟨"bogus", none, false⟩
    ∧ generate_plan (mkAgent "bogus") (fun _ => .ok "text") "r" =
        (mkAgent "bogus", .error (.valueError ("Unknown model provider: " ++ "bogus"))) :=
  ⟨rfl, rfl⟩

/-- C4 amended: the constructor stores any selector without validation, so
construction always succeeds; for a selector other than the three recognized
tokens, the configuration `ValueError` is raised by the first `generate_plan`
call, which also leaves the agent state unchanged. -/
theorem unknown_provider_error_at_first_generate (p r : String)
    (hosted : String → Except AgentError String)
    (h1 : ¬ p = "mock") (h2 : ¬ p = "openai") (h3 : ¬ p = "anthropic") :
    mkAgent p = ⟨p, none, false⟩
    ∧ generate_plan (mkAgent p) hosted r =
        (mkAgent p, .error (.valueError ("Unknown model provider: " ++ p))) := by
  refine ⟨rfl, ?_⟩
  simp [generate_plan, generatePlanWithLLM, mkAgent, h1, h2, h3]

/-- Witness for the amended C4, at the concrete selector "bogus". -/
theorem unknown_provider_error_at_first_generate_witness :
    mkAgent "bogus" = (⟨"bogus", none, false⟩ : AgentState)
    ∧ generate_plan (mkAgent "bogus") (fun _ => .ok "plan text") "req" =
        (mkAgent "bogus", .error (.valueError ("Unknown model provider: " ++ "bogus"))) :=
  unknown_provider_error_at_first_generate "bogus" "req" (fun _ => .ok "plan text")
    (by decide) (by decide) (by decide)

/-- C6: `write_files` processes descriptors strictly in list order — the run
on an appended list performs the prefix first and continues on the prefix's
resulting filesystem only when the prefix raised nothing; with
`overwrite = false`, an occupied path raises a `FileExistsError` naming that
path, stopping there with the directory created, every earlier write kept and
no file content changed by the failing step; without a conflict, or with
`overwrite = true`, the descriptor is written after its parent directory is
created, and a write fully replaces any content previously at the path. -/
theorem write_files_in_order (fs : FS) (pre suf rest : List FileToGenerate)
    (f : FileToGenerate) (ow : Bool) (p c : String) :
    (write_files fs (pre ++ suf) ow =
      match write_files fs pre ow with
      | (fs1, none) => write_files fs1 suf ow
      | (fs1, some e) => (fs1, some e))
    ∧ ((fs.mkdirFor f.path).exists f.path = true →
        write_files fs (f :: rest) false =
          (fs.mkdirFor f.path,
           some (.fileExistsError ("File already exists: " ++ f.path)))
        ∧ (fs.mkdirFor f.path).files = fs.files)
    ∧ ((fs.mkdirFor f.path).exists f.path = false ∨ ow = true →
        write_files fs (f :: rest) ow =
          write_files ((fs.mkdirFor f.path).write f.path f.content) rest ow)
    ∧ (fs.write p c).lookup p = some c := by
  refine ⟨?_, ?_, ?_, ?_⟩
  · induction pre generalizing fs with
    | nil => simp [write_files]
    | cons g pre ih =>
      cases hg : (fs.mkdirFor g.path).exists g.path && !ow with
      | false => simp [write_files, hg, ih]
      | true => simp [write_files, hg]
  · intro h
    exact ⟨by simp [write_files, h], rfl⟩
  · rintro (h | h)
    · simp [write_files, h]
    · simp [write_files, h]
  · simp [FS.write, FS.lookup]

/-- Witness for C6: a conflicting write without overwrite raises the naming
error, altering no file; a plain write is retrievable in full. -/
theorem write_files_in_order_witness :
    write_files ⟨[], [("d/a.txt", "old")]⟩ [⟨"d/a.txt", "new", "w"⟩] false =
      ((⟨[], [("d/a.txt", "old")]⟩ : FS).mkdirFor "d/a.txt",
       some (.fileExistsError ("File already exists: " ++ "d/a.txt")))
    ∧ ((⟨[], [("d/a.txt", "old")]⟩ : FS).mkdirFor "d/a.txt").files =
        [("d/a.txt", "old")]
    ∧ (FS.write ⟨[], [("d/a.txt", "old")]⟩ "x" "c").lookup "x" = some "c" := by
  have h := write_files_in_order ⟨[], [("d/a.txt", "old")]⟩ [] [] []
    ⟨"d/a.txt", "new", "w"⟩ false "x" "c"
  exact ⟨(h.2.1 (by decide)).1, (h.2.1 (by decide)).2, h.2.2.2⟩

/-- C7: with the mock provider, an approved agent's `implement_plan` ignores
the stored plan text and returns exactly three descriptors in order — entry
point `output_dir/main.py`, utilities `output_dir/utils.py` and
`output_dir/README.md` — each with its fixed non-empty canned content and
fixed description, whatever the plan was. -/
theorem implement_plan_mock_fixed_files (plan dir : String) (h : ¬ plan = "") :
    implement_plan ⟨"mock", some plan, true⟩ dir =
      (⟨"mock", some plan, true⟩, .ok (generateMockFiles dir))
    ∧ (generateMockFiles dir).map FileToGenerate.path =
        [osPathJoin dir "main.py", osPathJoin dir "utils.py", osPathJoin dir "README.md"]
    ∧ (generateMockFiles dir).map FileToGenerate.description =
        ["Main application file", "Utility functions", "Project documentation"]
    ∧ (generateMockFiles dir).map FileToGenerate.content =
        ["\"\"\"Main application entry point.\"\"\"\n\ndef main():\n    print(\"Hello, World!\")\n\nif __name__ == \"__main__\":\n    main()\n",
         "\"\"\"Utility functions.\"\"\"\n\ndef helper_function():\n    \"\"\"A helpful utility function.\"\"\"\n    pass\n",
         "# Project\n\nThis project was generated by the planning agent.\n\n## Usage\n\n```bash\npython main.py\n```\n"]
    ∧ ((generateMockFiles dir).all fun f => !(f.content == "")) = true := by
  refine ⟨?_, rfl, rfl, rfl, rfl⟩
  simp [implement_plan, planTruthy, generateFilesFromPlan, h]

/-- Witness for C7, at a concrete plan and output directory. -/
theorem implement_plan_mock_fixed_files_witness :
    implement_plan ⟨"mock", some "p", true⟩ "out" =
      (⟨"mock", some "p", true⟩, .ok (generateMockFiles "out"))
    ∧ (generateMockFiles "out").map FileToGenerate.path =
        [osPathJoin "out" "main.py", osPathJoin "out" "utils.py",
         osPathJoin "out" "README.md"] := by
  have h := implement_plan_mock_fixed_files "p" "out" (by decide)
  exact ⟨h.1, h.2.1⟩

theorem isPrefixOf_head {a : Char} {l m : List Char}
    (h : List.isPrefixOf (a :: l) m = true) : m.head? = some a := by
  cases m with
  | nil => simp [List.isPrefixOf] at h
  | cons b bs =>
    simp only [List.isPrefixOf, Bool.and_eq_true, beq_iff_eq] at h
    simp [h.1]

theorem pyEndsWith_last (fn suf : String) (c : Char) (cs : List Char)
    (hs : suf.data.reverse = c :: cs) (h : pyEndsWith fn suf = true) :
    fn.data.reverse.head? = some c := by
  unfold pyEndsWith at h
  rw [hs] at h
  exact isPrefixOf_head h

theorem pyEndsWith_disjoint (fn s t : String) (c d : Char) (cs ds : List Char)
    (hsr : s.data.reverse = c :: cs) (htr : t.data.reverse = d :: ds)
    (hne : ¬ c = d) (h : pyEndsWith fn s = true) : pyEndsWith fn t = false := by
  cases ht : pyEndsWith fn t with
  | false => rfl
  | true =>
    exact absurd (Option.some.inj
      ((pyEndsWith_last fn s c cs hsr h).symm.trans
        (pyEndsWith_last fn t d ds htr ht))) hne

/-- C8: for a non-mock selector, file synthesis emits one descriptor per
regex match over the plan, in match order with duplicates kept, its path the
match joined under the output directory and its description derived from it;
the content depends only on the filename's extension, with exactly the
branches .py → commented Python stub, .md → heading plus a line, .json →
empty object literal, .yaml → comment line, and everything else — `.txt`
among it — the generic comment line. -/
theorem generate_files_nonmock_scan (provider plan dir : String)
    (hm : ¬ provider = "mock") :
    generateFilesFromPlan provider plan dir =
      (findFileTokens plan).map (fun fn =>
        ⟨osPathJoin dir fn, generateFileContent fn plan, "Generated " ++ fn⟩)
    ∧ (∀ fn p q, generateFileContent fn p = generateFileContent fn q)
    ∧ (∀ fn, pyEndsWith fn ".py" = true → generateFileContent fn plan =
        "\"\"\"Generated Python file: " ++ fn ++ "\"\"\"\n\n# TODO: Implement based on plan\n")
    ∧ (∀ fn, pyEndsWith fn ".md" = true → generateFileContent fn plan =
        "# " ++ fn ++ "\n\nGenerated documentation.\n")
    ∧ (∀ fn, pyEndsWith fn ".json" = true → generateFileContent fn plan = "{}\n")
    ∧ (∀ fn, pyEndsWith fn ".yaml" = true → generateFileContent fn plan = "# YAML configuration\n")
    ∧ (∀ fn, pyEndsWith fn ".py" = false → pyEndsWith fn ".md" = false →
        pyEndsWith fn ".json" = false → pyEndsWith fn ".yaml" = false →
        generateFileContent fn plan = "# Generated file\n")
    ∧ pyEndsWith "notes.txt" ".txt" = true
    ∧ generateFileContent "notes.txt" plan = "# Generated file\n"
    ∧ findFileTokens "`b.md` then `a.py` and `a.py`" = ["b.md", "a.py", "a.py"] := by
  refine ⟨by simp [generateFilesFromPlan, hm], fun fn p q => rfl, fun fn h => ?_,
    fun fn h => ?_, fun fn h => ?_, fun fn h => ?_, fun fn h1 h2 h3 h4 => ?_,
    by decide, rfl, by decide⟩
  · simp [generateFileContent, h]
  · have hpy := pyEndsWith_disjoint fn ".md" ".py" 'd' 'y' ['m', '.'] ['p', '.']
      (by decide) (by decide) (by decide) h
    simp [generateFileContent, hpy, h]
  · have hpy := pyEndsWith_disjoint fn ".json" ".py" 'n' 'y' ['o', 's', 'j', '.'] ['p', '.']
      (by decide) (by decide) (by decide) h
    have hmd := pyEndsWith_disjoint fn ".json" ".md" 'n' 'd' ['o', 's', 'j', '.'] ['m', '.']
      (by decide) (by decide) (by decide) h
    simp [generateFileContent, hpy, hmd, h]
  · have hpy := pyEndsWith_disjoint fn ".yaml" ".py" 'l' 'y' ['m', 'a', 'y', '.'] ['p', '.']
      (by decide) (by decide) (by decide) h
    have hmd := pyEndsWith_disjoint fn ".yaml" ".md" 'l' 'd' ['m', 'a', 'y', '.'] ['m', '.']
      (by decide) (by decide) (by decide) h
    have hjs := pyEndsWith_disjoint fn ".yaml" ".json" 'l' 'n' ['m', 'a', 'y', '.'] ['o', 's', 'j', '.']
      (by decide) (by decide) (by decide) h
    simp [generateFileContent, hpy, hmd, hjs, h]
  · simp [generateFileContent, h1, h2, h3, h4]

/-- Witness for C8, at the concrete selector "openai" and a plan quoting one
file twice. -/
theorem generate_files_nonmock_scan_witness :
    generateFilesFromPlan "openai" "`b.md` then `a.py` and `a.py`" "out" =
      (findFileTokens "`b.md` then `a.py` and `a.py`").map (fun fn =>
        ⟨osPathJoin "out" fn,
         generateFileContent fn "`b.md` then `a.py` and `a.py`",
         "Generated " ++ fn⟩)
    ∧ findFileTokens "`b.md` then `a.py` and `a.py`" = ["b.md", "a.py", "a.py"] := by
  have h := generate_files_nonmock_scan "openai" "`b.md` then `a.py` and `a.py`" "out"
    (by decide)
  exact ⟨h.1, h.2.2.2.2.2.2.2.2.2⟩

/-- Substring containment, stated by decomposition. -/
def ContainsSub (s sub : String) : Prop :=
  ∃ t u : String, s = t ++ sub ++ u

theorem str_append_assoc (a b c : String) : a ++ b ++ c = a ++ (b ++ c) := by
  cases a with
  | mk xs =>
    cases b with
    | mk ys =>
      cases c with
      | mk zs => exact congrArg String.mk (List.append_assoc xs ys zs)

/-- C9: each of the two mock plan generators (the agent's internal one and
the mock provider class) is deterministic, and for every requirement string
`r` its output contains `r` verbatim and contains the heading text
"Implementation Plan". -/
theorem mock_plan_contains_requirement (r : String) :
    generateMockPlan r = generateMockPlan r
    ∧ ContainsSub (generateMockPlan r) r
    ∧ ContainsSub (generateMockPlan r) "Implementation Plan"
    ∧ mockProviderGeneratePlan r = mockProviderGeneratePlan r
    ∧ ContainsSub (mockProviderGeneratePlan r) r
    ∧ ContainsSub (mockProviderGeneratePlan r) "Implementation Plan" := by
  refine ⟨rfl, ⟨"# Implementation Plan\n\n## Requirement\n", _, rfl⟩,
    ⟨"# ", "\n\n## Requirement\n" ++ r ++
      "\n\n## Proposed Solution\n\n### Files to Create\n1. `main.py` - Main application entry point\n2. `utils.py` - Utility functions\n3. `README.md` - Documentation\n\n### Implementation Steps\n1. Set up project structure\n2. Implement core functionality\n3. Add error handling\n4. Write documentation\n5. Test the implementation\n\n### Dependencies\n- No external dependencies required for basic implementation\n\n## Timeline\nEstimated implementation time: 30 minutes\n", ?_⟩,
    rfl, ⟨"# Implementation Plan\n\n## Requirement\n", _, rfl⟩,
    ⟨"# ", "\n\n## Requirement\n" ++ r ++
      "\n\n## Files\n- `main.py` - Main application entry point\n- `utils.py` - Utility functions\n- `README.md` - Documentation\n\n## Steps\n1. Set up project structure.\n2. Implement core functionality.\n3. Add error handling and validation.\n4. Add basic documentation.\n5. Add tests and verify the workflow.\n\n## Dependencies\n- No external dependencies required for basic implementation.\n\n## Open Questions\n- Are there any constraints on libraries/frameworks?\n- What is the target Python version and runtime environment?\n", ?_⟩⟩
  · simp only [generateMockPlan, ← str_append_assoc]
    rfl
  · simp only [mockProviderGeneratePlan, ← str_append_assoc]
    rfl

/-- Embeds Python `s.strip()` (whitespace on both ends removed), as applied
by `AnthropicPlanProvider.generate_plan` to the extracted text. -/
def pyStrip (s : String) : String :=
  String.mk (((s.data.dropWhile Char.isWhitespace).reverse.dropWhile
    Char.isWhitespace).reverse)

/-- Embeds the text extraction of `AnthropicPlanProvider.generate_plan`
(providers/anthropic_provider.py): the first content block's optional `text`
attribute if any block exists, with `(text or "").strip()` applied; in
particular a response carrying no text yields the empty string. -/
def anthropicExtractText (blocks : List (Option String)) : String :=
  pyStrip ((match blocks with | [] => none | b :: _ => b).getD "")

/-- C10: a provider returning "" — as the hosted message-based provider does
when the response carries no text — gets committed by `generate_plan` as
`current_plan = some ""`, so a plan is nominally present; yet `approve_plan`
then raises the missing-plan error (plan presence is string truthiness) and
leaves the state unchanged, and `implement_plan` fails too, so the agent
stays unapprovable until a new plan is generated. -/
theorem empty_plan_unapprovable (a : AgentState) (r : String)
    (hosted : String → Except AgentError String)
    (hp : a.model_provider = "anthropic") (hh : hosted r = .ok "") :
    anthropicExtractText [] = ""
    ∧ generate_plan a hosted r = (⟨"anthropic", some "", false⟩, .ok "")
    ∧ (⟨"anthropic", some "", false⟩ : AgentState).current_plan ≠ none
    ∧ approve_plan ⟨"anthropic", some "", false⟩ =
        (⟨"anthropic", some "", false⟩,
         .error (.valueError "No plan to approve. Generate a plan first."))
    ∧ ∀ d, implement_plan ⟨"anthropic", some "", false⟩ d =
        (⟨"anthropic", some "", false⟩,
         .error (.valueError "Plan must be approved before implementation")) := by
  refine ⟨rfl, ?_, by simp, rfl, fun d => rfl⟩
  simp [generate_plan, generatePlanWithLLM, hp, hh]

/-- Witness for C10: the concrete anthropic-selector agent with a hosted
call returning the empty string. -/
theorem empty_plan_unapprovable_witness :
    generate_plan (mkAgent "anthropic") (fun _ => .ok "") "r" =
      (⟨"anthropic", some "", false⟩, .ok "")
    ∧ approve_plan ⟨"anthropic", some "", false⟩ =
        (⟨"anthropic", some "", false⟩,
         .error (.valueError "No plan to approve. Generate a plan first.")) := by
  have h := empty_plan_unapprovable (mkAgent "anthropic") "r" (fun _ => .ok "") rfl rfl
  exact ⟨h.2.1, h.2.2.2.1⟩

end PlanningAgentModel
